import Mathlib

/-!
Shallow embedding of `airflow/providers/amazon/aws/operators/ecs.py`
(the `ECSOperator` class and the module-level `should_retry` function).

Python dictionaries with optional keys are modelled with `Option` fields;
`d.get(k, default)` becomes `Option.getD`, while a direct access `d[k]` that
can raise `KeyError` is modelled as a fallible branch.  Exceptions are
modelled with `Except`.  Remote-service responses are supplied through an
explicit environment record `EcsEnv`.
-/

namespace EcsOp

/-- A CloudWatch log event: `{timestamp, message}`. -/
structure LogEvent where
  timestamp : Int
  message : String
deriving Repr, DecidableEq

/-- One container record inside an ECS task description.  The Python code
reads `lastStatus` and `reason` via `.get` (absent key tolerated) and
`exitCode` via direct indexing (absent key raises `KeyError`), so all three
are `Option`s here and the consumer decides how absence is treated. -/
structure ContainerDesc where
  lastStatus : Option String
  exitCode : Option Int
  reason : Option String
deriving Repr, DecidableEq

/-- One task description returned by `describe_tasks`: the code reads
`stoppedReason` via `.get(..., '')` and `containers` by direct indexing
(always present in the service's response shape). -/
structure TaskDesc where
  stoppedReason : Option String
  containers : List ContainerDesc
deriving Repr, DecidableEq

/-- The `describe_tasks` response: `failures` is read with
`.get('failures', [])` (modelled as a plain list of failure reasons) and
`tasks` directly. -/
structure DescribeResponse where
  failures : List String
  tasks : List TaskDesc
deriving Repr, DecidableEq

/-- `pat` occurs as a contiguous sublist of `hay` (Python's `in` on strings). -/
def listContainsSub (pat hay : List Char) : Bool :=
  hay.tails.any fun t => pat.isPrefixOf t

/-- Python's `pat in hay` substring test. -/
def strContainsSub (hay pat : String) : Bool :=
  listContainsSub pat.toList hay.toList

/-- Python's `str.lower()` restricted to ASCII (all needles used by the
source are ASCII). -/
def strLower (s : String) : String :=
  s.map Char.toLower

/-- The fixed head of the host-termination pattern
`r'Host EC2 \(instance .+?\) (stopped|terminated)\.'`. -/
def hostReasonHead : List Char :=
  "Host EC2 (instance ".toList

/-- `re.match(r'Host EC2 \(instance .+?\) (stopped|terminated)\.', s)` is
truthy: the string starts with the fixed head, followed by at least one
non-newline character, followed by `") stopped."` or `") terminated."`
(anything may follow, since `re.match` only anchors at the start). -/
def hostTerminatedMatch (s : String) : Bool :=
  let cs := s.toList
  let t := cs.drop hostReasonHead.length
  hostReasonHead.isPrefixOf cs &&
    (List.range (t.length + 1)).any fun i =>
      decide (1 ≤ i) && (t.take i).all (fun c => c ≠ '\n') &&
        ((") stopped.".toList.isPrefixOf (t.drop i)) ||
         (") terminated.".toList.isPrefixOf (t.drop i)))

/-- The distinct terminal-failure classifications raised by
`_check_success_task`, plus `missingExitCode`, which models the `KeyError`
raised by the direct access `container['exitCode']` on a stopped container
that carries no exit code. -/
inductive CheckError where
  | serviceFailure
  | hostTerminated (stoppedReason : String)
  | containerNonZeroExit
  | containerPending
  | containerLaunchError (loweredReason : String)
  | missingExitCode
deriving Repr, DecidableEq

/-- The condition `container.get('lastStatus') == 'STOPPED' and
container['exitCode'] != 0`: evaluating it can itself raise (`KeyError`)
when the container is stopped but has no `exitCode` key. -/
def stoppedNonzero (c : ContainerDesc) : Except CheckError Bool :=
  if c.lastStatus = some "STOPPED" then
    match c.exitCode with
    | none => .error .missingExitCode
    | some ec => .ok (decide (ec ≠ 0))
  else .ok false

/-- The per-container `if/elif/elif` chain of `_check_success_task`. -/
def checkContainer (c : ContainerDesc) : Except CheckError Unit :=
  match stoppedNonzero c with
  | .error e => .error e
  | .ok true => .error .containerNonZeroExit
  | .ok false =>
    if c.lastStatus = some "PENDING" then .error .containerPending
    else if strContainsSub (strLower (c.reason.getD "")) "error" then
      .error (.containerLaunchError (strLower (c.reason.getD "")))
    else .ok ()

/-- The `for container in containers` loop: the first raised exception
aborts the loop. -/
def checkContainers : List ContainerDesc → Except CheckError Unit
  | [] => .ok ()
  | c :: cs =>
    match checkContainer c with
    | .error e => .error e
    | .ok _ => checkContainers cs

/-- The per-task body of the `for task in response['tasks']` loop:
host-termination stop reason first, then the containers. -/
def checkTask (t : TaskDesc) : Except CheckError Unit :=
  if hostTerminatedMatch (t.stoppedReason.getD "") then
    .error (.hostTerminated (t.stoppedReason.getD ""))
  else checkContainers t.containers

/-- The `for task in response['tasks']` loop. -/
def checkTasks : List TaskDesc → Except CheckError Unit
  | [] => .ok ()
  | t :: ts =>
    match checkTask t with
    | .error e => .error e
    | .ok _ => checkTasks ts

/-- The outcome evaluation of `_check_success_task` after its guard:
top-level failures first, then the per-task checks.  (The CloudWatch log
printing loop between the describe call and the failures check only logs
and is omitted.) -/
def evalTaskResponse (resp : DescribeResponse) : Except CheckError Unit :=
  if 0 < resp.failures.length then .error .serviceFailure
  else checkTasks resp.tasks

/-- Claim-side restatement of the container check order (used to state the
spec's "first failure in container iteration order"): the classification a
single container yields, assuming a stopped container carries an exit code
(`getD 0` is only reached in that case in the theorems below). -/
def claimContainerError (c : ContainerDesc) : Option CheckError :=
  if c.lastStatus = some "STOPPED" ∧ c.exitCode.getD 0 ≠ 0 then
    some .containerNonZeroExit
  else if c.lastStatus = some "PENDING" then some .containerPending
  else if strContainsSub (strLower (c.reason.getD "")) "error" then
    some (.containerLaunchError (strLower (c.reason.getD "")))
  else none

/-- Claim-side: the first container failure in iteration order. -/
def firstContainerError (cs : List ContainerDesc) : Option CheckError :=
  cs.findSome? claimContainerError

/-- Every stopped container of the task carries an exit code (the shape the
service produces for a task whose containers actually ran). -/
def stoppedHasExit (t : TaskDesc) : Prop :=
  ∀ c ∈ t.containers, c.lastStatus = some "STOPPED" → c.exitCode ≠ none

instance (t : TaskDesc) : Decidable (stoppedHasExit t) := by
  unfold stoppedHasExit; infer_instance

theorem checkContainer_eq_claim (c : ContainerDesc)
    (h : c.lastStatus = some "STOPPED" → c.exitCode ≠ none) :
    checkContainer c =
      (match claimContainerError c with
       | some e => .error e
       | none => .ok ()) := by
  unfold checkContainer stoppedNonzero claimContainerError
  by_cases hs : c.lastStatus = some "STOPPED"
  · cases hx : c.exitCode with
    | none => exact absurd hx (h hs)
    | some ec =>
      by_cases he : ec = 0
      · by_cases hr : strContainsSub (strLower (c.reason.getD "")) "error" = true <;>
          simp [hs, hx, he, hr]
      · simp [hs, hx, he]
  · simp only [hs, if_false, if_neg hs]
    by_cases hp : c.lastStatus = some "PENDING" <;>
      by_cases hr : strContainsSub (strLower (c.reason.getD "")) "error" = true <;>
        simp [hs, hp, hr]

theorem checkContainers_eq_first (cs : List ContainerDesc)
    (h : ∀ c ∈ cs, c.lastStatus = some "STOPPED" → c.exitCode ≠ none) :
    checkContainers cs =
      (match firstContainerError cs with
       | some e => .error e
       | none => .ok ()) := by
  induction cs with
  | nil => rfl
  | cons c cs ih =>
    have hc := checkContainer_eq_claim c (h c (List.mem_cons_self c cs))
    have ih' := ih (fun x hx => h x (List.mem_cons_of_mem c hx))
    cases hcc : claimContainerError c with
    | some e =>
      simp [checkContainers, hc, hcc, firstContainerError, List.findSome?_cons]
    | none =>
      simp only [checkContainers, hc, hcc, firstContainerError,
        List.findSome?_cons]
      exact ih'

/-- C1: for a terminal task description (a describe response carrying one
task whose stopped containers carry exit codes), the outcome evaluation
applies its checks in order and yields the first positive match:
(1) non-empty top-level failures list → service-reported failure;
(2) stop reason matching the host-instance stopped/terminated pattern →
host-terminated failure, regardless of the containers;
(3) per container in iteration order: stopped with non-zero exit code, then
still pending, then reason containing "error" case-insensitively — the
first failure encountered in that order is reported. -/
theorem check_success_order (resp : DescribeResponse) (t : TaskDesc)
    (ht : resp.tasks = [t]) (hwf : stoppedHasExit t) :
    evalTaskResponse resp =
      (if resp.failures ≠ [] then .error .serviceFailure
       else if hostTerminatedMatch (t.stoppedReason.getD "") then
         .error (.hostTerminated (t.stoppedReason.getD ""))
       else
         match firstContainerError t.containers with
         | some e => .error e
         | none => .ok ()) := by
  unfold evalTaskResponse
  cases hf : resp.failures with
  | cons f fs => simp [hf]
  | nil =>
    have hcs := checkContainers_eq_first t.containers hwf
    by_cases hh : hostTerminatedMatch (t.stoppedReason.getD "") = true <;>
      simp [hf, ht, checkTasks, checkTask, hh, hcs] <;>
        cases hfc : firstContainerError t.containers <;> simp

/-- Concrete single-task response for the C1 witness: Scenario C's stop
reason together with a container that would itself fail (non-zero exit). -/
def taskC1 : TaskDesc :=
  { stoppedReason := some "Host EC2 (instance i-123) terminated."
    containers := [{ lastStatus := some "STOPPED", exitCode := some 1, reason := none }] }

/-- Concrete describe response for the C1 witness. -/
def respC1 : DescribeResponse :=
  { failures := [], tasks := [taskC1] }

/-- Witness for C1: with the Scenario C stop reason the verdict is the
host-terminated failure even though a container has a non-zero exit code. -/
theorem check_success_order_witness :
    evalTaskResponse respC1 =
      .error (.hostTerminated "Host EC2 (instance i-123) terminated.") := by
  have h := check_success_order respC1 taskC1 rfl (by decide)
  rw [h]
  rfl

theorem claimContainerError_ne_missing (c : ContainerDesc) :
    claimContainerError c ≠ some .missingExitCode := by
  unfold claimContainerError
  by_cases h1 : c.lastStatus = some "STOPPED" ∧ c.exitCode.getD 0 ≠ 0 <;>
    by_cases h2 : c.lastStatus = some "PENDING" <;>
      by_cases h3 : strContainsSub (strLower (c.reason.getD "")) "error" = true <;>
        simp [h1, h2, h3]

theorem checkTask_no_missing (t : TaskDesc) (h : stoppedHasExit t) :
    checkTask t ≠ .error .missingExitCode := by
  unfold checkTask
  by_cases hh : hostTerminatedMatch (t.stoppedReason.getD "") = true
  · simp [hh]
  · rw [if_neg hh, checkContainers_eq_first t.containers h]
    cases hfc : firstContainerError t.containers with
    | none => simp
    | some e =>
      obtain ⟨c, _, hce⟩ :=
        List.exists_of_findSome?_eq_some (by simpa [firstContainerError] using hfc)
      have hne : e ≠ .missingExitCode := fun heq =>
        claimContainerError_ne_missing c (heq ▸ hce)
      simp [hne]

theorem checkTasks_no_missing (ts : List TaskDesc)
    (h : ∀ t ∈ ts, stoppedHasExit t) :
    checkTasks ts ≠ .error .missingExitCode := by
  induction ts with
  | nil => simp [checkTasks]
  | cons t ts ih =>
    have ht := checkTask_no_missing t (h t (List.mem_cons_self t ts))
    unfold checkTasks
    cases hc : checkTask t with
    | error e => exact fun heq => ht (hc.trans heq)
    | ok u => exact ih (fun x hx => h x (List.mem_cons_of_mem t hx))

/-- Concrete response for the C7 counterexample: one stopped container that
carries no `exitCode` key. -/
def respC7 : DescribeResponse :=
  { failures := []
    tasks := [{ stoppedReason := none
                containers := [{ lastStatus := some "STOPPED", exitCode := none,
                                 reason := none }] }] }

/-- C7 counterexample: the outcome evaluation is not total on arbitrary
container records — on a container with `lastStatus = "STOPPED"` and no
`exitCode` key, the direct access `container['exitCode']` raises `KeyError`
(modelled as `.missingExitCode`), an unclassified missing-field error
rather than a Verdict. -/
theorem evaluator_keyError_on_missing_exit :
    evalTaskResponse respC7 = .error .missingExitCode := rfl

/-- C7 amended: the outcome evaluation is total and deterministic for every
terminal task description in which every stopped container carries an exit
code: it yields exactly one result, either success or a classified failure,
and never the missing-field error. -/
theorem evaluator_total_on_wellformed (resp : DescribeResponse)
    (h : ∀ t ∈ resp.tasks, stoppedHasExit t) :
    evalTaskResponse resp = .ok () ∨
      ∃ e, evalTaskResponse resp = .error e ∧ e ≠ .missingExitCode := by
  unfold evalTaskResponse
  by_cases hf : 0 < resp.failures.length
  · exact Or.inr ⟨.serviceFailure, by simp [hf], by simp⟩
  · rw [if_neg hf]
    have hnm := checkTasks_no_missing resp.tasks h
    cases hct : checkTasks resp.tasks with
    | ok u => cases u; exact Or.inl rfl
    | error e => exact Or.inr ⟨e, rfl, fun heq => hnm (heq ▸ hct)⟩

/-- Concrete well-formed response for the C7 amended witness. -/
def respC7ok : DescribeResponse :=
  { failures := []
    tasks := [{ stoppedReason := none
                containers := [{ lastStatus := some "STOPPED", exitCode := some 0,
                                 reason := none }] }] }

/-- Witness for the amended C7 at a concrete well-formed response. -/
theorem evaluator_total_witness :
    evalTaskResponse respC7ok = .ok () ∨
      ∃ e, evalTaskResponse respC7ok = .error e ∧ e ≠ .missingExitCode :=
  evaluator_total_on_wellformed respC7ok (by decide)

/-- The operator's constructor-held configuration (the fields `_start_task`,
`_try_reattach_task`, the log helpers and `execute` read).  Python defaults:
`launch_type = 'EC2'`, `platform_version = 'LATEST'`, `reattach = False`;
`do_xcom_push` is the engine-level flag read at the end of `execute`. -/
structure ECSOperatorCfg where
  task_definition : String
  cluster : String
  overrides : String
  owner : String
  launch_type : String
  capacity_provider_strategy : Option (List String)
  group : Option String
  placement_constraints : Option (List String)
  placement_strategy : Option (List String)
  platform_version : String
  network_configuration : Option String
  tags : Option (List (String × String))
  propagate_tags : Option String
  awslogs_group : Option String
  awslogs_stream_pfx : Option String
  reattach : Bool
  do_xcom_push : Bool
deriving Repr

/-- The `run_opts` dictionary handed to `run_task`: keys that `_start_task`
only sets conditionally are `Option` fields defaulting to `none`. -/
structure RunOpts where
  cluster : String
  taskDefinition : String
  overrides : String
  startedBy : String
  capacityProviderStrategy : Option (List String) := none
  platformVersion : Option String := none
  launchType : Option String := none
  group : Option String := none
  placementConstraints : Option (List String) := none
  placementStrategy : Option (List String) := none
  networkConfiguration : Option String := none
  tags : Option (List (String × String)) := none
  propagateTags : Option String := none
deriving Repr, DecidableEq

/-- Python truthiness of an optional list (`if self.capacity_provider_strategy:`):
true exactly for a present, non-empty list. -/
def listTruthy : Option (List String) → Bool
  | some (_ :: _) => true
  | _ => false

/-- The `is not None` guarded tail of `_start_task`'s `run_opts` build
(group, placement, network configuration, tags, propagateTags).  A present
empty value still sets the key, since the code tests `is not None`. -/
def addOptionalOpts (cfg : ECSOperatorCfg) (r : RunOpts) : RunOpts :=
  let r := match cfg.group with
    | some g => { r with group := some g }
    | none => r
  let r := match cfg.placement_constraints with
    | some p => { r with placementConstraints := some p }
    | none => r
  let r := match cfg.placement_strategy with
    | some p => { r with placementStrategy := some p }
    | none => r
  let r := match cfg.network_configuration with
    | some n => { r with networkConfiguration := some n }
    | none => r
  let r := match cfg.tags with
    | some ts => { r with tags := some ts }
    | none => r
  match cfg.propagate_tags with
  | some p => { r with propagateTags := some p }
  | none => r

/-- The `if self.capacity_provider_strategy: ... elif self.launch_type: ...`
branch of `_start_task`. -/
def launchBranch (cfg : ECSOperatorCfg) (r : RunOpts) : RunOpts :=
  if listTruthy cfg.capacity_provider_strategy then
    { r with capacityProviderStrategy := cfg.capacity_provider_strategy,
             platformVersion := some cfg.platform_version }
  else if cfg.launch_type ≠ "" then
    let r2 := { r with launchType := some cfg.launch_type }
    if cfg.launch_type = "FARGATE" then
      { r2 with platformVersion := some cfg.platform_version }
    else r2
  else r

/-- `_start_task`'s `run_opts` construction: the mandatory keys, then the
capacity-provider / launch-type branch, then the optional keys. -/
def buildRunOpts (cfg : ECSOperatorCfg) : RunOpts :=
  addOptionalOpts cfg (launchBranch cfg
    { cluster := cfg.cluster, taskDefinition := cfg.task_definition,
      overrides := cfg.overrides, startedBy := cfg.owner })

theorem addOptionalOpts_launch_fields (cfg : ECSOperatorCfg) (r : RunOpts) :
    (addOptionalOpts cfg r).capacityProviderStrategy = r.capacityProviderStrategy ∧
    (addOptionalOpts cfg r).platformVersion = r.platformVersion ∧
    (addOptionalOpts cfg r).launchType = r.launchType := by
  unfold addOptionalOpts
  cases cfg.group <;> cases cfg.placement_constraints <;>
    cases cfg.placement_strategy <;> cases cfg.network_configuration <;>
      cases cfg.tags <;> cases cfg.propagate_tags <;>
        exact ⟨rfl, rfl, rfl⟩

/-- C3: with a (truthy) capacity-provider strategy the start request carries
the strategy and a platform version and no launch-type key; with only a
launch type it carries the launch type, and a platform version exactly when
the launch type is `"FARGATE"`. -/
theorem run_opts_launch_fields (cfg : ECSOperatorCfg) :
    (listTruthy cfg.capacity_provider_strategy = true →
       (buildRunOpts cfg).capacityProviderStrategy = cfg.capacity_provider_strategy ∧
       (buildRunOpts cfg).platformVersion = some cfg.platform_version ∧
       (buildRunOpts cfg).launchType = none)
  ∧ (listTruthy cfg.capacity_provider_strategy = false → cfg.launch_type ≠ "" →
       (buildRunOpts cfg).launchType = some cfg.launch_type ∧
       (cfg.launch_type = "FARGATE" →
          (buildRunOpts cfg).platformVersion = some cfg.platform_version) ∧
       (cfg.launch_type ≠ "FARGATE" →
          (buildRunOpts cfg).platformVersion = none)) := by
  have hopt := fun r => addOptionalOpts_launch_fields cfg r
  constructor
  · intro hcps
    unfold buildRunOpts
    refine ⟨((hopt _).1).trans ?_, ((hopt _).2.1).trans ?_,
      ((hopt _).2.2).trans ?_⟩ <;>
      simp [launchBranch, hcps]
  · intro hcps hlt
    unfold buildRunOpts
    by_cases hf : cfg.launch_type = "FARGATE"
    · refine ⟨((hopt _).2.2).trans ?_, fun _ => ((hopt _).2.1).trans ?_,
        fun hnf => absurd hf hnf⟩ <;>
        simp [launchBranch, hcps, hlt, hf]
    · refine ⟨((hopt _).2.2).trans ?_, fun hf' => absurd hf' hf,
        fun _ => ((hopt _).2.1).trans ?_⟩ <;>
        simp [launchBranch, hcps, hlt, hf]

/-- Concrete configuration for the C3 witness: a truthy capacity-provider
strategy. -/
def cfgC3 : ECSOperatorCfg :=
  { task_definition := "td", cluster := "cl", overrides := "{}", owner := "airflow"
    launch_type := "EC2", capacity_provider_strategy := some ["FARGATE_SPOT"]
    group := none, placement_constraints := none, placement_strategy := none
    platform_version := "LATEST", network_configuration := none, tags := none
    propagate_tags := none, awslogs_group := none, awslogs_stream_pfx := none
    reattach := false, do_xcom_push := true }

/-- Witness for C3: with the strategy set, the derived request has the
strategy and a platform version and no launch type. -/
theorem run_opts_launch_fields_witness :
    (buildRunOpts cfgC3).capacityProviderStrategy = some ["FARGATE_SPOT"] ∧
    (buildRunOpts cfgC3).platformVersion = some "LATEST" ∧
    (buildRunOpts cfgC3).launchType = none :=
  (run_opts_launch_fields cfgC3).1 rfl

/-- The exceptions the operator can raise on the modelled paths:
`ECSOperatorError(failures, response)` from `_start_task`, the `IndexError`
from `response['tasks'][0]` on an empty task list, and `AirflowException`
(here carrying the outcome classification) from `_check_success_task`. -/
inductive PyException where
  | ecsOperatorError (failures : List String)
  | indexError
  | airflowException (e : CheckError)
deriving Repr, DecidableEq

/-- Module-level `should_retry`: an `ECSOperatorError` whose failures
mention a resource-quota marker; any other exception is not retried. -/
def should_retry (e : PyException) : Bool :=
  match e with
  | .ecsOperatorError failures =>
    ["RESOURCE:MEMORY", "RESOURCE:CPU"].any fun q =>
      failures.any fun f => strContainsSub f q
  | _ => false

/-- The remote collaborators as an explicit environment: the task-definition
family lookup, the running-task listing by (cluster, family), the fixed
`run_task` response (failure reasons and started task ARNs), the
`describe_tasks` response per task ARN, and the log backend per
(group, stream name). -/
structure EcsEnv where
  taskDefFamily : String → String
  listRunning : String → String → List String
  runFailures : List String
  runTaskArns : List String
  describeResp : String → DescribeResponse
  logEvents : String → String → List LogEvent

/-- `_try_reattach_task`: look up the family, list the running tasks of
that family, pull the previously stored ARN, and adopt it when present in
the running list.  Returns the new value of `self.arn` (a pulled `None`
never matches the running list, like Python's `None in [...]`). -/
def try_reattach_task (cfg : ECSOperatorCfg) (env : EcsEnv) :
    Option String → Option String
  | some p =>
    if p ∈ env.listRunning cfg.cluster (env.taskDefFamily cfg.task_definition)
    then some p else none
  | none => none

/-- Result of the start-or-reattach stage of `execute`: the start outcome
(the adopted or freshly started ARN, or the raised exception), the
correlation-store entry afterwards, and how many `run_task` calls were
issued. -/
structure StartResult where
  outcome : Except PyException String
  stored : Option String
  startCalls : Nat
deriving Repr

/-- `_start_task` after the `run_task` call: raise `ECSOperatorError` on a
non-empty failures list, otherwise take `response['tasks'][0]['taskArn']`
and, under reattach, persist it in the store (`_xcom_set`). -/
def start_task (cfg : ECSOperatorCfg) (env : EcsEnv)
    (stored : Option String) : StartResult :=
  if 0 < env.runFailures.length then
    ⟨.error (.ecsOperatorError env.runFailures), stored, 1⟩
  else
    match env.runTaskArns with
    | [] => ⟨.error .indexError, stored, 1⟩
    | a :: _ => ⟨.ok a, if cfg.reattach then some a else stored, 1⟩

/-- The start-or-reattach stage of `execute`: `if self.reattach:
self._try_reattach_task()` then `if not self.arn: self._start_task(...)`. -/
def startOrReattach (cfg : ECSOperatorCfg) (env : EcsEnv)
    (stored : Option String) : StartResult :=
  match (if cfg.reattach then try_reattach_task cfg env stored else none) with
  | some a => ⟨.ok a, stored, 0⟩
  | none => start_task cfg env stored

/-- C2: with reattachment enabled, a stored ARN that appears in the running
list for the task definition's family is adopted as the handle with no
`run_task` call and the store untouched; when nothing is stored, or the
stored ARN is absent from the running list, one `run_task` call is made and
(on a successful response) the store is overwritten with the new ARN. -/
theorem reattach_adopt_or_start (cfg : ECSOperatorCfg) (env : EcsEnv)
    (s0 : Option String) (hre : cfg.reattach = true) :
    (∀ p, s0 = some p →
        p ∈ env.listRunning cfg.cluster (env.taskDefFamily cfg.task_definition) →
        startOrReattach cfg env s0 = ⟨.ok p, s0, 0⟩)
  ∧ ((∀ p, s0 = some p →
        p ∉ env.listRunning cfg.cluster (env.taskDefFamily cfg.task_definition)) →
      env.runFailures = [] →
      ∀ a rest, env.runTaskArns = a :: rest →
        startOrReattach cfg env s0 = ⟨.ok a, some a, 1⟩) := by
  constructor
  · intro p hp hmem
    subst hp
    simp [startOrReattach, try_reattach_task, hre, hmem]
  · intro hmiss hf a rest ha
    have htr : try_reattach_task cfg env s0 = none := by
      cases s0 with
      | none => rfl
      | some p => simp [try_reattach_task, hmiss p rfl]
    simp [startOrReattach, hre, htr, start_task, hf, ha]

/-- Concrete configuration for the C2 witness (reattach enabled). -/
def cfgC2 : ECSOperatorCfg :=
  { task_definition := "td", cluster := "cl", overrides := "{}", owner := "airflow"
    launch_type := "EC2", capacity_provider_strategy := none
    group := none, placement_constraints := none, placement_strategy := none
    platform_version := "LATEST", network_configuration := none, tags := none
    propagate_tags := none, awslogs_group := none, awslogs_stream_pfx := none
    reattach := true, do_xcom_push := true }

/-- Concrete environment for the C2 witness: the stored ARN is running. -/
def envC2 : EcsEnv :=
  { taskDefFamily := fun _ => "fam"
    listRunning := fun _ _ => ["arn-old"]
    runFailures := []
    runTaskArns := ["arn-new"]
    describeResp := fun _ => { failures := [], tasks := [] }
    logEvents := fun _ _ => [] }

/-- Witness for C2: the stored running ARN is adopted, no start call. -/
theorem reattach_adopt_or_start_witness :
    startOrReattach cfgC2 envC2 (some "arn-old") =
      ⟨.ok "arn-old", some "arn-old", 0⟩ :=
  (reattach_adopt_or_start cfgC2 envC2 (some "arn-old") rfl).1
    "arn-old" rfl (by decide)

/-- Python truthiness of `self.arn` (`None` and `""` are falsy). -/
def arnTruthy : Option String → Bool
  | some s => decide (s ≠ "")
  | none => false

/-- The remote calls whose issuance the claims talk about. -/
inductive Effect where
  | stopTask (cluster task reason : String)
  | waitTasksStopped (cluster : String) (tasks : List String)
  | describeTasks (cluster : String) (tasks : List String)
deriving Repr, DecidableEq

/-- `_wait_for_task_ended`: returns immediately without a remote call when
there is no client or no truthy `arn`; otherwise issues one `tasks_stopped`
waiter call (unbounded, timeout owned by the engine). -/
def wait_for_task_ended (cfg : ECSOperatorCfg) (client : Bool)
    (arn : Option String) : List Effect :=
  if client && arnTruthy arn then
    [.waitTasksStopped cfg.cluster [arn.getD ""]]
  else []

/-- `_check_success_task` including its guard: the verdict together with
the remote calls issued (none when the guard short-circuits). -/
def check_success_task (cfg : ECSOperatorCfg) (env : EcsEnv) (client : Bool)
    (arn : Option String) : Except CheckError Unit × List Effect :=
  if client && arnTruthy arn then
    (evalTaskResponse (env.describeResp (arn.getD "")),
     [.describeTasks cfg.cluster [arn.getD ""]])
  else (.ok (), [])

/-- `on_kill`: returns immediately when there is no client or no truthy
`arn`; otherwise a single `stop_task` call with the fixed reason string,
with no waiter interaction afterwards. -/
def on_kill (cfg : ECSOperatorCfg) (client : Bool) (arn : Option String) :
    List Effect :=
  if client && arnTruthy arn then
    [.stopTask cfg.cluster (arn.getD "") "Task killed by the user"]
  else []

/-- `_aws_logs_enabled`: `self.awslogs_group and self.awslogs_stream_prefix`
(Python truthiness on both optional strings). -/
def aws_logs_enabled (cfg : ECSOperatorCfg) : Bool :=
  (match cfg.awslogs_group with | some g => decide (g ≠ "") | none => false) &&
  (match cfg.awslogs_stream_pfx with | some p => decide (p ≠ "") | none => false)

/-- `self.arn.split("/")[-1]` (Python `split` never yields an empty list). -/
def lastPathComponent (s : String) : String :=
  (s.splitOn "/").getLastD ""

/-- The log stream name `f"{self.awslogs_stream_prefix}/{task_id}"`. -/
def streamNameOf (cfg : ECSOperatorCfg) (arn : String) : String :=
  cfg.awslogs_stream_pfx.getD "" ++ "/" ++ lastPathComponent arn

/-- `_cloudwatch_log_events`: the finite event sequence for the derived
stream name, empty when no log configuration is present (not an error). -/
def cloudwatch_log_events (cfg : ECSOperatorCfg) (env : EcsEnv)
    (arn : String) : List LogEvent :=
  if aws_logs_enabled cfg then
    env.logEvents (cfg.awslogs_group.getD "") (streamNameOf cfg arn)
  else []

/-- `_last_log_message`: the `message` of the single event kept by
`deque(..., maxlen=1)` — the last one — or `None` via the `IndexError`
branch when the sequence is empty. -/
def last_log_message (cfg : ECSOperatorCfg) (env : EcsEnv) (arn : String) :
    Option String :=
  (cloudwatch_log_events cfg env arn).getLast?.map LogEvent.message

/-- Observable outcome of one `execute` invocation: returned value or
raised exception, the correlation-store entry afterwards, the final task
handle, and the number of `run_task` calls issued. -/
structure ExecOutcome where
  result : Except PyException (Option String)
  stored : Option String
  arn : Option String
  startCalls : Nat
deriving Repr

/-- The tail of `execute` after the start-or-reattach stage: wait (pure),
evaluate the stopped task, delete the store entry under reattach — which
the code reaches only when `_check_success_task` did not raise — and
return the last log message when `do_xcom_push` is set. -/
def executeAfterStart (cfg : ECSOperatorCfg) (env : EcsEnv)
    (sr : StartResult) : ExecOutcome :=
  match sr.outcome with
  | .error e => ⟨.error e, sr.stored, none, sr.startCalls⟩
  | .ok a =>
    match (check_success_task cfg env true (some a)).1 with
    | .error e =>
      ⟨.error (.airflowException e), sr.stored, some a, sr.startCalls⟩
    | .ok _ =>
      ⟨.ok (if cfg.do_xcom_push then last_log_message cfg env a else none),
       if cfg.reattach then none else sr.stored, some a, sr.startCalls⟩

/-- `ECSOperator.execute` end to end. -/
def executeModel (cfg : ECSOperatorCfg) (env : EcsEnv) (s0 : Option String) :
    ExecOutcome :=
  executeAfterStart cfg env (startOrReattach cfg env s0)

theorem try_reattach_some (cfg : ECSOperatorCfg) (env : EcsEnv)
    (s0 : Option String) (p : String)
    (h : try_reattach_task cfg env s0 = some p) : s0 = some p := by
  cases s0 with
  | none => simp [try_reattach_task] at h
  | some q =>
    by_cases hm : q ∈ env.listRunning cfg.cluster (env.taskDefFamily cfg.task_definition)
    · simp [try_reattach_task, hm] at h
      rw [h]
    · simp [try_reattach_task, hm] at h

theorem start_task_error_shape (cfg : ECSOperatorCfg) (env : EcsEnv)
    (s0 : Option String) (e : PyException)
    (h : (start_task cfg env s0).outcome = .error e) :
    e = .ecsOperatorError env.runFailures ∨ e = .indexError := by
  unfold start_task at h
  by_cases hf : 0 < env.runFailures.length
  · rw [if_pos hf] at h
    have h' : Except.error (ε := PyException)
        (.ecsOperatorError env.runFailures) = .error e := h
    exact Or.inl (Except.error.inj h').symm
  · rw [if_neg hf] at h
    cases har : env.runTaskArns with
    | nil =>
      rw [har] at h
      have h' : Except.error (ε := PyException) .indexError = .error e := h
      exact Or.inr (Except.error.inj h').symm
    | cons a rest =>
      rw [har] at h
      have h' : Except.ok (ε := PyException) a = .error e := h
      exact Except.noConfusion h'

theorem startOrReattach_error_shape (cfg : ECSOperatorCfg) (env : EcsEnv)
    (s0 : Option String) (e : PyException)
    (h : (startOrReattach cfg env s0).outcome = .error e) :
    e = .ecsOperatorError env.runFailures ∨ e = .indexError := by
  unfold startOrReattach at h
  cases htr : (if cfg.reattach then try_reattach_task cfg env s0 else none) with
  | some p =>
    rw [htr] at h
    have h' : Except.ok (ε := PyException) p = .error e := h
    exact Except.noConfusion h'
  | none =>
    rw [htr] at h
    exact start_task_error_shape cfg env s0 e h

theorem startOrReattach_stored_of_ok (cfg : ECSOperatorCfg) (env : EcsEnv)
    (s0 : Option String) (hre : cfg.reattach = true) (a : String)
    (h : (startOrReattach cfg env s0).outcome = .ok a) :
    (startOrReattach cfg env s0).stored = some a := by
  unfold startOrReattach at h ⊢
  rw [hre] at h ⊢
  cases htr : try_reattach_task cfg env s0 with
  | some p =>
    rw [htr] at h
    have h' : Except.ok (ε := PyException) p = .ok a := h
    have hpa : p = a := Except.ok.inj h'
    subst hpa
    show s0 = some p
    exact try_reattach_some cfg env s0 p htr
  | none =>
    rw [htr] at h
    have h2 : (start_task cfg env s0).outcome = .ok a := h
    show (start_task cfg env s0).stored = some a
    unfold start_task at h2 ⊢
    by_cases hf : 0 < env.runFailures.length
    · rw [if_pos hf] at h2
      have h' : Except.error (ε := PyException)
          (.ecsOperatorError env.runFailures) = .ok a := h2
      exact Except.noConfusion h'
    · rw [if_neg hf] at h2 ⊢
      cases har : env.runTaskArns with
      | nil =>
        rw [har] at h2
        have h' : Except.error (ε := PyException) .indexError = .ok a := h2
        exact Except.noConfusion h'
      | cons b rest =>
        rw [har] at h2
        have h' : Except.ok (ε := PyException) b = .ok a := h2
        have hba : b = a := Except.ok.inj h'
        subst hba
        show (if cfg.reattach then some b else s0) = some b
        simp [hre]

theorem executeAfterStart_cases (cfg : ECSOperatorCfg) (env : EcsEnv)
    (o : Except PyException String) (st : Option String) (n : Nat) :
    (∃ e, o = .error e ∧
       executeAfterStart cfg env ⟨o, st, n⟩ = ⟨.error e, st, none, n⟩) ∨
    (∃ a, o = .ok a ∧
      ((∃ e, (check_success_task cfg env true (some a)).1 = .error e ∧
          executeAfterStart cfg env ⟨o, st, n⟩ =
            ⟨.error (.airflowException e), st, some a, n⟩) ∨
       ((check_success_task cfg env true (some a)).1 = .ok () ∧
          executeAfterStart cfg env ⟨o, st, n⟩ =
            ⟨.ok (if cfg.do_xcom_push then last_log_message cfg env a else none),
             if cfg.reattach then none else st, some a, n⟩))) := by
  cases o with
  | error e => exact Or.inl ⟨e, rfl, rfl⟩
  | ok a =>
    have he : executeAfterStart cfg env ⟨.ok a, st, n⟩ =
        (match (check_success_task cfg env true (some a)).1 with
         | .error e => (⟨.error (.airflowException e), st, some a, n⟩ : ExecOutcome)
         | .ok _ =>
           ⟨.ok (if cfg.do_xcom_push then last_log_message cfg env a else none),
            if cfg.reattach then none else st, some a, n⟩) := rfl
    cases hc : (check_success_task cfg env true (some a)).1 with
    | error e =>
      rw [hc] at he
      exact Or.inr ⟨a, rfl, Or.inl ⟨e, hc, he⟩⟩
    | ok u =>
      cases u
      rw [hc] at he
      exact Or.inr ⟨a, rfl, Or.inr ⟨hc, he⟩⟩

theorem executeModel_cases (cfg : ECSOperatorCfg) (env : EcsEnv)
    (s0 : Option String) :
    (∃ e, (startOrReattach cfg env s0).outcome = .error e ∧
       executeModel cfg env s0 =
         ⟨.error e, (startOrReattach cfg env s0).stored, none,
          (startOrReattach cfg env s0).startCalls⟩) ∨
    (∃ a, (startOrReattach cfg env s0).outcome = .ok a ∧
      ((∃ e, (check_success_task cfg env true (some a)).1 = .error e ∧
          executeModel cfg env s0 =
            ⟨.error (.airflowException e), (startOrReattach cfg env s0).stored,
             some a, (startOrReattach cfg env s0).startCalls⟩) ∨
       ((check_success_task cfg env true (some a)).1 = .ok () ∧
          executeModel cfg env s0 =
            ⟨.ok (if cfg.do_xcom_push then last_log_message cfg env a else none),
             if cfg.reattach then none else (startOrReattach cfg env s0).stored,
             some a, (startOrReattach cfg env s0).startCalls⟩))) :=
  executeAfterStart_cases cfg env (startOrReattach cfg env s0).outcome
    (startOrReattach cfg env s0).stored (startOrReattach cfg env s0).startCalls

/-- C5 amended: with reattachment enabled the correlation-store entry is
deleted exactly on the success path (`DONE`); on a classified failure the
`AirflowException` from `_check_success_task` propagates out of `execute`
before the deletion statement, so the entry remains (still holding the
current handle). -/
theorem store_cleared_only_on_success (cfg : ECSOperatorCfg) (env : EcsEnv)
    (s0 : Option String) (hre : cfg.reattach = true) :
    (∀ v, (executeModel cfg env s0).result = .ok v →
        (executeModel cfg env s0).stored = none)
  ∧ (∀ e, (executeModel cfg env s0).result = .error (.airflowException e) →
        (executeModel cfg env s0).stored = (executeModel cfg env s0).arn ∧
        (executeModel cfg env s0).arn ≠ none) := by
  rcases executeModel_cases cfg env s0 with
    ⟨e, ho, hE⟩ | ⟨a, ho, ⟨e, hc, hE⟩ | ⟨hc, hE⟩⟩
  · constructor
    · intro v hv
      rw [hE] at hv
      simp at hv
    · intro e' he'
      rw [hE] at he'
      have h' : Except.error (α := Option String) e =
          .error (.airflowException e') := he'
      have hee := Except.error.inj h'
      rcases startOrReattach_error_shape cfg env s0 e ho with h1 | h1 <;>
        rw [hee] at h1 <;> cases h1
  · constructor
    · intro v hv
      rw [hE] at hv
      simp at hv
    · intro e' he'
      rw [hE]
      have hst := startOrReattach_stored_of_ok cfg env s0 hre a ho
      exact ⟨hst, by simp⟩
  · constructor
    · intro v hv
      rw [hE]
      show (if cfg.reattach then none else (startOrReattach cfg env s0).stored)
        = none
      simp [hre]
    · intro e' he'
      rw [hE] at he'
      simp at he'

/-- Concrete configuration for C5 (reattach enabled). -/
def cfgC5 : ECSOperatorCfg :=
  { task_definition := "td", cluster := "cl", overrides := "{}", owner := "airflow"
    launch_type := "EC2", capacity_provider_strategy := none
    group := none, placement_constraints := none, placement_strategy := none
    platform_version := "LATEST", network_configuration := none, tags := none
    propagate_tags := none, awslogs_group := none, awslogs_stream_pfx := none
    reattach := true, do_xcom_push := true }

/-- Concrete environment for C5: the start succeeds, the terminal describe
response carries a failure, so the run ends in the classified-failure
state. -/
def envC5 : EcsEnv :=
  { taskDefFamily := fun _ => "fam"
    listRunning := fun _ _ => []
    runFailures := []
    runTaskArns := ["arn-1"]
    describeResp := fun _ => { failures := ["unable"], tasks := [] }
    logEvents := fun _ _ => [] }

/-- C5 counterexample: the run reaches the classified-failure terminal
state, yet the correlation-store entry is NOT deleted — it still holds the
task handle, contradicting "deleted on both DONE and FAILED". -/
theorem store_left_behind_on_failure :
    (executeModel cfgC5 envC5 none).result =
      .error (.airflowException .serviceFailure) ∧
    (executeModel cfgC5 envC5 none).stored = some "arn-1" :=
  ⟨rfl, rfl⟩

/-- Witness for the amended C5 at the concrete failing run: the surviving
store entry equals the current handle. -/
theorem store_cleared_only_on_success_witness :
    (executeModel cfgC5 envC5 none).stored = (executeModel cfgC5 envC5 none).arn ∧
    (executeModel cfgC5 envC5 none).arn ≠ none :=
  (store_cleared_only_on_success cfgC5 envC5 none rfl).2 .serviceFailure rfl

/-- C6: the last-message value is the `message` of the final element of the
event sequence for stream `{streamPrefix}/{lastPathComponentOfArn}`, and is
`none` (not an error) when the log configuration is missing or the
sequence is empty; on a successful invocation (with result pushing on,
the engine default) this value is what `execute` returns. -/
theorem last_message_result (cfg : ECSOperatorCfg) (env : EcsEnv)
    (arn : String) :
    (aws_logs_enabled cfg = true →
       last_log_message cfg env arn =
         (env.logEvents (cfg.awslogs_group.getD "")
           (streamNameOf cfg arn)).getLast?.map LogEvent.message)
  ∧ (aws_logs_enabled cfg = false → last_log_message cfg env arn = none)
  ∧ (env.logEvents (cfg.awslogs_group.getD "") (streamNameOf cfg arn) = [] →
       last_log_message cfg env arn = none)
  ∧ (∀ s0 v, cfg.do_xcom_push = true →
       (executeModel cfg env s0).result = .ok v →
       ∃ a, (executeModel cfg env s0).arn = some a ∧
         v = last_log_message cfg env a) := by
  refine ⟨?_, ?_, ?_, ?_⟩
  · intro h
    simp [last_log_message, cloudwatch_log_events, h]
  · intro h
    simp [last_log_message, cloudwatch_log_events, h]
  · intro h
    by_cases he : aws_logs_enabled cfg = true <;>
      simp [last_log_message, cloudwatch_log_events, he, h]
  · intro s0 v hp hv
    rcases executeModel_cases cfg env s0 with
      ⟨e, ho, hE⟩ | ⟨a, ho, ⟨e, hc, hE⟩ | ⟨hc, hE⟩⟩
    · rw [hE] at hv
      simp at hv
    · rw [hE] at hv
      simp at hv
    · rw [hE] at hv ⊢
      have hv' : Except.ok (ε := PyException)
          (if cfg.do_xcom_push then last_log_message cfg env a else none) =
          .ok v := hv
      have := Except.ok.inj hv'
      rw [hp] at this
      simp only [if_true] at this
      exact ⟨a, rfl, this.symm⟩

/-- Concrete configuration for the C6 witness: logs configured. -/
def cfgC6 : ECSOperatorCfg :=
  { task_definition := "td", cluster := "cl", overrides := "{}", owner := "airflow"
    launch_type := "EC2", capacity_provider_strategy := none
    group := none, placement_constraints := none, placement_strategy := none
    platform_version := "LATEST", network_configuration := none, tags := none
    propagate_tags := none, awslogs_group := some "grp"
    awslogs_stream_pfx := some "pfx"
    reattach := false, do_xcom_push := true }

/-- Concrete environment for the C6 witness. -/
def envC6 : EcsEnv :=
  { taskDefFamily := fun _ => "fam"
    listRunning := fun _ _ => []
    runFailures := []
    runTaskArns := ["cluster/abc/task-1"]
    describeResp := fun _ => { failures := [], tasks := [] }
    logEvents := fun _ s => if s = "pfx/task-1" then
      [{ timestamp := 1, message := "hello" }] else [] }

/-- Witness for C6: with logs configured the last message is the final
event's message of the derived stream. -/
theorem last_message_result_witness :
    last_log_message cfgC6 envC6 "cluster/abc/task-1" =
      (envC6.logEvents (cfgC6.awslogs_group.getD "")
        (streamNameOf cfgC6 "cluster/abc/task-1")).getLast?.map
        LogEvent.message :=
  (last_message_result cfgC6 envC6 "cluster/abc/task-1").1 rfl

/-- C9: when result pushing (`do_xcom_push`) is disabled, a successful
invocation returns `None` — never the last log message — even if logs are
configured and non-empty. -/
theorem no_xcom_push_returns_none (cfg : ECSOperatorCfg) (env : EcsEnv)
    (s0 : Option String) (hp : cfg.do_xcom_push = false) :
    (∃ e, (executeModel cfg env s0).result = .error e) ∨
      (executeModel cfg env s0).result = .ok none := by
  rcases executeModel_cases cfg env s0 with
    ⟨e, ho, hE⟩ | ⟨a, ho, ⟨e, hc, hE⟩ | ⟨hc, hE⟩⟩
  · exact Or.inl ⟨e, by rw [hE]⟩
  · exact Or.inl ⟨.airflowException e, by rw [hE]⟩
  · right
    rw [hE]
    show Except.ok (if cfg.do_xcom_push then last_log_message cfg env a
      else none) = .ok none
    rw [hp]
    simp

/-- Concrete configuration for the C9 witness: logs configured but
`do_xcom_push` disabled. -/
def cfgC9 : ECSOperatorCfg :=
  { task_definition := "td", cluster := "cl", overrides := "{}", owner := "airflow"
    launch_type := "EC2", capacity_provider_strategy := none
    group := none, placement_constraints := none, placement_strategy := none
    platform_version := "LATEST", network_configuration := none, tags := none
    propagate_tags := none, awslogs_group := some "grp"
    awslogs_stream_pfx := some "pfx"
    reattach := false, do_xcom_push := false }

/-- Concrete environment for the C9 witness: non-empty logs, successful run. -/
def envC9 : EcsEnv :=
  { taskDefFamily := fun _ => "fam"
    listRunning := fun _ _ => []
    runFailures := []
    runTaskArns := ["cluster/abc/task-9"]
    describeResp := fun _ => { failures := [], tasks := [] }
    logEvents := fun _ _ => [{ timestamp := 1, message := "hello" }] }

/-- Witness for C9 at a concrete successful run with non-empty logs. -/
theorem no_xcom_push_returns_none_witness :
    (∃ e, (executeModel cfgC9 envC9 none).result = .error e) ∨
      (executeModel cfgC9 envC9 none).result = .ok none :=
  no_xcom_push_returns_none cfgC9 envC9 none rfl

/-- C8: whenever a client and a task handle exist, `on_kill` issues exactly
one stop request for that handle with the fixed reason
`"Task killed by the user"`, and it performs no wait for confirmation (the
issued effects contain no waiter call). -/
theorem kill_single_stop (cfg : ECSOperatorCfg) (a : String) (ha : a ≠ "") :
    on_kill cfg true (some a) =
      [.stopTask cfg.cluster a "Task killed by the user"] := by
  simp [on_kill, arnTruthy, ha]

/-- Concrete configuration for the C8 witness. -/
def cfgC8 : ECSOperatorCfg :=
  { task_definition := "td", cluster := "cl", overrides := "{}", owner := "airflow"
    launch_type := "EC2", capacity_provider_strategy := none
    group := none, placement_constraints := none, placement_strategy := none
    platform_version := "LATEST", network_configuration := none, tags := none
    propagate_tags := none, awslogs_group := none, awslogs_stream_pfx := none
    reattach := false, do_xcom_push := true }

/-- Witness for C8 at a concrete handle. -/
theorem kill_single_stop_witness :
    on_kill cfgC8 true (some "arn-8") =
      [.stopTask "cl" "arn-8" "Task killed by the user"] :=
  kill_single_stop cfgC8 "arn-8" (by decide)

/-- C10: when no client or no task handle exists, the wait, evaluate and
cancel operations are no-ops: each returns immediately, issues no remote
call, and the evaluation yields no verdict error; in particular a
cancellation before any task was started sends no stop request. -/
theorem no_handle_noops (cfg : ECSOperatorCfg) (env : EcsEnv) (client : Bool)
    (arn : Option String) (h : client = false ∨ arn = none) :
    wait_for_task_ended cfg client arn = [] ∧
    check_success_task cfg env client arn = (.ok (), []) ∧
    on_kill cfg client arn = [] := by
  have hg : (client && arnTruthy arn) = false := by
    rcases h with h | h <;> subst h <;> simp [arnTruthy]
  simp [wait_for_task_ended, check_success_task, on_kill, hg]

/-- Concrete environment for the C10 witness. -/
def envC10 : EcsEnv :=
  { taskDefFamily := fun _ => "fam"
    listRunning := fun _ _ => []
    runFailures := []
    runTaskArns := []
    describeResp := fun _ => { failures := ["boom"], tasks := [] }
    logEvents := fun _ _ => [] }

/-- Concrete configuration for the C10 witness. -/
def cfgC10 : ECSOperatorCfg :=
  { task_definition := "td", cluster := "cl", overrides := "{}", owner := "airflow"
    launch_type := "EC2", capacity_provider_strategy := none
    group := none, placement_constraints := none, placement_strategy := none
    platform_version := "LATEST", network_configuration := none, tags := none
    propagate_tags := none, awslogs_group := none, awslogs_stream_pfx := none
    reattach := false, do_xcom_push := true }

/-- Witness for C10: with a client but no handle, all three operations are
no-ops even though the environment would report a failure if asked. -/
theorem no_handle_noops_witness :
    wait_for_task_ended cfgC10 true none = [] ∧
    check_success_task cfgC10 envC10 true none = (.ok (), []) ∧
    on_kill cfgC10 true none = [] :=
  no_handle_noops cfgC10 envC10 true none (Or.inr rfl)

/-- C4: `_start_task` raises a launch error (`ECSOperatorError`) exactly
when the `run_task` response's failures list is non-empty; such an error
is retry-eligible (`should_retry`) exactly when some failure reason
contains `RESOURCE:MEMORY` or `RESOURCE:CPU` as a substring; any exception
that is not an `ECSOperatorError` is never retry-eligible. -/
theorem launch_error_and_retry (cfg : ECSOperatorCfg) (env : EcsEnv)
    (s0 : Option String) :
    ((∃ fs, (start_task cfg env s0).outcome = .error (.ecsOperatorError fs)) ↔
       env.runFailures ≠ [])
  ∧ (∀ fs, should_retry (.ecsOperatorError fs) = true ↔
       ∃ f ∈ fs, (strContainsSub f "RESOURCE:MEMORY" ||
                  strContainsSub f "RESOURCE:CPU") = true)
  ∧ (∀ e : PyException, (∀ fs, e ≠ .ecsOperatorError fs) →
       should_retry e = false) := by
  refine ⟨⟨?_, ?_⟩, ?_, ?_⟩
  · rintro ⟨fs, h⟩
    intro hnil
    have hf : ¬0 < env.runFailures.length := by simp [hnil]
    unfold start_task at h
    rw [if_neg hf] at h
    cases har : env.runTaskArns with
    | nil =>
      rw [har] at h
      have h' : Except.error (ε := PyException) .indexError =
          .error (.ecsOperatorError fs) := h
      cases Except.error.inj h'
    | cons a rest =>
      rw [har] at h
      have h' : Except.ok (ε := PyException) a =
          .error (.ecsOperatorError fs) := h
      exact Except.noConfusion h'
  · intro hne
    have hf : 0 < env.runFailures.length := List.length_pos.mpr hne
    refine ⟨env.runFailures, ?_⟩
    unfold start_task
    rw [if_pos hf]
  · intro fs
    unfold should_retry
    constructor
    · intro h
      simp only [List.any_eq_true] at h
      obtain ⟨q, hq, f, hf, hc⟩ := h
      refine ⟨f, hf, ?_⟩
      rcases List.mem_cons.mp hq with hq | hq
      · rw [hq] at hc
        simp [hc]
      · rcases List.mem_cons.mp hq with hq | hq
        · rw [hq] at hc
          simp [hc]
        · simp at hq
    · rintro ⟨f, hf, hor⟩
      simp only [List.any_eq_true]
      have hor' : strContainsSub f "RESOURCE:MEMORY" = true ∨
          strContainsSub f "RESOURCE:CPU" = true := by
        simpa using hor
      rcases hor' with h | h
      · exact ⟨"RESOURCE:MEMORY", by simp, f, hf, h⟩
      · exact ⟨"RESOURCE:CPU", by simp, f, hf, h⟩
  · intro e he
    cases e with
    | ecsOperatorError fs => exact absurd rfl (he fs)
    | indexError => rfl
    | airflowException e' => rfl

/-- Concrete configuration for the C4 witness. -/
def cfgC4 : ECSOperatorCfg :=
  { task_definition := "td", cluster := "cl", overrides := "{}", owner := "airflow"
    launch_type := "EC2", capacity_provider_strategy := none
    group := none, placement_constraints := none, placement_strategy := none
    platform_version := "LATEST", network_configuration := none, tags := none
    propagate_tags := none, awslogs_group := none, awslogs_stream_pfx := none
    reattach := false, do_xcom_push := true }

/-- Concrete environment for the C4 witness: `run_task` reports a quota
failure. -/
def envC4 : EcsEnv :=
  { taskDefFamily := fun _ => "fam"
    listRunning := fun _ _ => []
    runFailures := ["You have reached the limit RESOURCE:CPU"]
    runTaskArns := []
    describeResp := fun _ => { failures := [], tasks := [] }
    logEvents := fun _ _ => [] }

/-- Witness for C4: a quota-marked launch failure is retry-eligible, a
check-phase `AirflowException` is not. -/
theorem launch_error_and_retry_witness :
    should_retry (.ecsOperatorError
      ["You have reached the limit RESOURCE:CPU"]) = true ∧
    should_retry (.airflowException .serviceFailure) = false := by
  constructor
  · exact ((launch_error_and_retry cfgC4 envC4 none).2.1 _).mpr
      ⟨"You have reached the limit RESOURCE:CPU", by simp, by decide⟩
  · exact (launch_error_and_retry cfgC4 envC4 none).2.2 _
      (fun fs h => PyException.noConfusion h)
